import Mathlib

/-!
Shallow embedding of `src/exam.py` (Trantienhue/Unittest_exam):
an order-processing service that fetches a user's orders, runs a
type-dispatched per-order pipeline (type A: CSV export; type B: remote
API verification; type C: flag completion), assigns a priority, and
persists the resulting status.

External collaborators (`DatabaseService`, `APIClient`, the file system)
are modelled as an `Env` of pure oracles returning `Except`-style
outcomes, mirroring the exceptions the Python code can observe
(`DatabaseException`, `APIException`, `IOError`).  The mutation of
`Order` objects in place is modelled by explicit state passing: each
stage maps an order to an updated order.
-/

deriving instance DecidableEq for Except

namespace Exam

/-- Embeds `class Order` (src/exam.py:8-15): `id`, `type`, `amount`
(a Python float, modelled as `Rat`), `flag`, and the mutable `status`
and `priority`, initialised to `"new"` / `"low"` by `__init__`. -/
structure Order where
  id : Int
  type : String
  amount : Rat
  flag : Bool
  status : String := "new"
  priority : String := "low"
deriving Repr, DecidableEq

/-- Embeds `class APIResponse` (src/exam.py:18-21).  The `data` field is
`Any` in Python and is `None` in some responses (see the tests), so it is
modelled as `Option Rat`: `some` for a numeric payload, `none` for
`None`. -/
structure APIResponse where
  status : String
  data : Option Rat
deriving Repr, DecidableEq

/-- A Python exception escaping the per-order pipeline uncaught: the only
such case in the embedded code is the `TypeError` raised by
`api_response.data >= 50` when `data` is `None`. -/
inductive PyError where
  | typeError
deriving Repr, DecidableEq

/-- The environment of external collaborators, as seen from
`OrderProcessingService`:
`getOrders` is `DatabaseService.get_orders_by_user` (`.error` = any
exception raised by the fetch); `fileWriteOk o` tells whether the CSV
open/write for the order with id `o` succeeds (`false` = `IOError`);
`callApi` is `APIClient.call_api` (`.error` = `APIException`);
`updateOrderStatus` is `DatabaseService.update_order_status`
(`.error` = `DatabaseException`, `.ok b` = normal return of `b`). -/
structure Env where
  getOrders : Int → Except Unit (List Order)
  fileWriteOk : Int → Bool
  callApi : Int → Except Unit APIResponse
  updateOrderStatus : Int → String → String → Except Unit Bool

/-- A cell of the exported CSV file: `csv.writer` stringifies each
value; we keep the value itself, tagged by its Python type. -/
inductive Cell where
  | intCell (i : Int)
  | strCell (s : String)
  | numCell (q : Rat)
deriving Repr, DecidableEq

/-- `str(order.flag).lower()` (src/exam.py:89). -/
def pyBoolLower (b : Bool) : String :=
  if b then "true" else "false"

/-- The rows written to the CSV file by `_process_type_a_order`
(src/exam.py:84-94): header row, one data row with the order's current
field values, and, when `amount > 150`, the high-value annotation row. -/
def csvRows (order : Order) : List (List Cell) :=
  [[.strCell "ID", .strCell "Type", .strCell "Amount", .strCell "Flag",
    .strCell "Status", .strCell "Priority"],
   [.intCell order.id, .strCell order.type, .numCell order.amount,
    .strCell (pyBoolLower order.flag), .strCell order.status,
    .strCell order.priority]] ++
  (if order.amount > 150 then
    [[.strCell "", .strCell "", .strCell "", .strCell "",
      .strCell "Note", .strCell "High value order"]]
   else [])

/-- Embeds `_process_type_a_order` (src/exam.py:79-97).  `fileOk` is the
outcome of the CSV open/write; on success the rows of `csvRows` are
written and status becomes `"exported"`, on `IOError` no complete file is
produced and status becomes `"export_failed"`. -/
def processTypeAOrder (fileOk : Bool) (order : Order) :
    Order × Option (List (List Cell)) :=
  if fileOk then
    ({ order with status := "exported" }, some (csvRows order))
  else
    ({ order with status := "export_failed" }, none)

/-- Embeds `_process_type_b_order` (src/exam.py:99-112).  An
`APIException` from `call_api` is caught and recorded as
`"api_failure"`; a non-`"success"` response is recorded as
`"api_error"`; on a `"success"` response the comparison
`api_response.data >= 50` raises an uncaught `TypeError` when `data` is
`None`, otherwise the processed/pending/error rules run. -/
def processTypeBOrder (env : Env) (order : Order) : Except PyError Order :=
  match env.callApi order.id with
  | .error _ => .ok { order with status := "api_failure" }
  | .ok resp =>
    if resp.status = "success" then
      match resp.data with
      | none => .error .typeError
      | some d =>
        if d ≥ 50 ∧ order.amount < 100 then
          .ok { order with status := "processed" }
        else if d < 50 ∨ order.flag then
          .ok { order with status := "pending" }
        else
          .ok { order with status := "error" }
    else
      .ok { order with status := "api_error" }

/-- Embeds `_process_type_c_order` (src/exam.py:114-118). -/
def processTypeCOrder (order : Order) : Order :=
  if order.flag then
    { order with status := "completed" }
  else
    { order with status := "in_progress" }

/-- Embeds `_set_order_priority` (src/exam.py:120-124). -/
def setOrderPriority (order : Order) : Order :=
  if order.amount > 200 then
    { order with priority := "high" }
  else
    { order with priority := "low" }

/-- Embeds `_update_order_status` (src/exam.py:126-130): the call to
`update_order_status` is made with the order's current id/status/priority;
a `DatabaseException` overwrites status with `"db_error"`, and the boolean
result of a normal return is ignored. -/
def updateOrderStatusStep (env : Env) (order : Order) : Order :=
  match env.updateOrderStatus order.id order.status order.priority with
  | .error _ => { order with status := "db_error" }
  | .ok _ => order

/-- Result of one per-order pipeline run: the order's final state, the
CSV file produced by a successful type-A export (if any), and the single
`update_order_status` call that was made. -/
structure StepResult where
  order : Order
  file : Option (List (List Cell))
  dbCall : Int × String × String
deriving Repr, DecidableEq

/-- The type dispatch of `_process_order` (src/exam.py:67-74): the
`if/elif/elif/else` chain on `order.type`. -/
def dispatchOrder (env : Env) (order : Order) :
    Except PyError (Order × Option (List (List Cell))) :=
  if order.type = "A" then
    .ok (processTypeAOrder (env.fileWriteOk order.id) order)
  else if order.type = "B" then
    (processTypeBOrder env order).map (fun o => (o, none))
  else if order.type = "C" then
    .ok (processTypeCOrder order, none)
  else
    .ok ({ order with status := "unknown_type" }, none)

/-- Embeds `_process_order` (src/exam.py:66-77): dispatch on
`order.type`, then priority assignment, then status persistence.  An
uncaught exception from a stage (`PyError`) escapes to the caller. -/
def processOrder (env : Env) (order : Order) : Except PyError StepResult :=
  match dispatchOrder env order with
  | .error e => .error e
  | .ok (o1, file) =>
    let o2 := setOrderPriority o1
    let o3 := updateOrderStatusStep env o2
    .ok ⟨o3, file, (o2.id, o2.status, o2.priority)⟩

/-- Result of one `process_orders` call: the boolean return value, the
final in-memory states of the fetched orders (orders after an uncaught
per-order exception keep their fetched state), and the list of
`update_order_status` calls made. -/
structure BatchResult where
  retval : Bool
  orders : List Order
  dbCalls : List (Int × String × String)
deriving Repr, DecidableEq

/-- The `for order in orders` loop of `process_orders`
(src/exam.py:59-60): orders are processed sequentially until one raises
an uncaught exception; the raising order and the remaining orders keep
their fetched state and make no database call. -/
def processOrdersLoop (env : Env) : List Order →
    List Order × List (Int × String × String) × Option PyError
  | [] => ([], [], none)
  | o :: rest =>
    match processOrder env o with
    | .error e => (o :: rest, [], some e)
    | .ok r =>
      let (os, calls, e?) := processOrdersLoop env rest
      (r.order :: os, r.dbCall :: calls, e?)

/-- Embeds `process_orders` (src/exam.py:53-64): fetch the user's
orders; any fetch exception or an empty result returns `false`; otherwise
run the loop; an exception escaping the loop is caught by the outer
`except Exception` and returns `false`, else return `true`. -/
def processOrders (env : Env) (userId : Int) : BatchResult :=
  match env.getOrders userId with
  | .error _ => ⟨false, [], []⟩
  | .ok orders =>
    if orders.isEmpty then ⟨false, orders, []⟩
    else
      let (os, calls, e?) := processOrdersLoop env orders
      ⟨e?.isNone, os, calls⟩

/-- The statuses a type-dispatch stage can assign
(src/exam.py:74,95,97,104,106,108,110,112,116,118). -/
def stageStatuses : List String :=
  ["exported", "export_failed", "processed", "pending", "error",
   "api_error", "api_failure", "completed", "in_progress", "unknown_type"]

/-- The terminal statuses: the stage statuses plus `"db_error"` from the
persistence step (src/exam.py:130). -/
def terminalStatuses : List String := stageStatuses ++ ["db_error"]

/-- `apiDataOk env o` says the remote service, when called for order
`o`, does not answer a `"success"` response whose payload is `None` —
the one response shape on which the embedded code raises an uncaught
`TypeError` (src/exam.py:103). -/
def apiDataOk (env : Env) (o : Order) : Bool :=
  match env.callApi o.id with
  | .error _ => true
  | .ok resp => !(resp.status == "success" && resp.data.isNone)

/-! ### Helper lemmas about the individual stages -/

theorem processTypeAOrder_fst (ok : Bool) (o : Order) :
    (processTypeAOrder ok o).1 =
      { o with status := if ok then "exported" else "export_failed" } := by
  cases ok <;> simp [processTypeAOrder]

theorem processTypeBOrder_ok_fields (env : Env) (o o1 : Order)
    (h : processTypeBOrder env o = .ok o1) :
    o1.id = o.id ∧ o1.type = o.type ∧ o1.amount = o.amount ∧
    o1.flag = o.flag ∧ o1.priority = o.priority ∧
    o1.status ∈ ["processed", "pending", "error", "api_error", "api_failure"] := by
  unfold processTypeBOrder at h
  cases henv : env.callApi o.id with
  | error e =>
    rw [henv] at h
    cases h
    simp
  | ok resp =>
    rw [henv] at h
    dsimp only at h
    by_cases hs : resp.status = "success"
    · rw [if_pos hs] at h
      cases hd : resp.data with
      | none =>
        rw [hd] at h
        simp at h
      | some d =>
        rw [hd] at h
        dsimp only at h
        split_ifs at h <;> (cases h; simp)
    · rw [if_neg hs] at h
      cases h
      simp

theorem dispatchOrder_ok_fields (env : Env) (o o1 : Order)
    (f : Option (List (List Cell)))
    (h : dispatchOrder env o = .ok (o1, f)) :
    o1.id = o.id ∧ o1.type = o.type ∧ o1.amount = o.amount ∧
    o1.flag = o.flag ∧ o1.priority = o.priority ∧
    o1.status ∈ stageStatuses := by
  unfold dispatchOrder at h
  split_ifs at h with hA hB hC
  · cases hw : env.fileWriteOk o.id <;>
      (rw [processTypeAOrder] at h; rw [hw] at h; simp at h;
       rcases h with ⟨h, _⟩; subst h; simp [stageStatuses])
  · cases hb : processTypeBOrder env o with
    | error e => rw [hb] at h; cases h
    | ok ob =>
      rw [hb] at h
      simp [Except.map] at h
      obtain ⟨rfl, rfl⟩ := h
      have := processTypeBOrder_ok_fields env o ob hb
      simp only [stageStatuses, List.mem_cons] at *
      tauto
  · rw [processTypeCOrder] at h
    cases hf : o.flag <;>
      (rw [hf] at h; simp at h; rcases h with ⟨h, _⟩; subst h;
       simp [stageStatuses])
  · simp at h
    rcases h with ⟨h, _⟩
    subst h
    simp [stageStatuses]

theorem setOrderPriority_fields (o : Order) :
    (setOrderPriority o).id = o.id ∧ (setOrderPriority o).type = o.type ∧
    (setOrderPriority o).amount = o.amount ∧ (setOrderPriority o).flag = o.flag ∧
    (setOrderPriority o).status = o.status ∧
    (setOrderPriority o).priority = (if 200 < o.amount then "high" else "low") := by
  unfold setOrderPriority
  split_ifs <;> simp

theorem updateOrderStatusStep_fields (env : Env) (o : Order) :
    (updateOrderStatusStep env o).id = o.id ∧
    (updateOrderStatusStep env o).type = o.type ∧
    (updateOrderStatusStep env o).amount = o.amount ∧
    (updateOrderStatusStep env o).flag = o.flag ∧
    (updateOrderStatusStep env o).priority = o.priority ∧
    ((updateOrderStatusStep env o).status = o.status ∨
      (updateOrderStatusStep env o).status = "db_error") := by
  unfold updateOrderStatusStep
  cases env.updateOrderStatus o.id o.status o.priority <;> simp

theorem processOrder_ok_spec (env : Env) (o : Order) (r : StepResult)
    (h : processOrder env o = .ok r) :
    r.order.id = o.id ∧ r.order.type = o.type ∧ r.order.amount = o.amount ∧
    r.order.flag = o.flag ∧
    r.order.priority = (if 200 < o.amount then "high" else "low") ∧
    r.order.status ∈ terminalStatuses := by
  unfold processOrder at h
  cases hd : dispatchOrder env o with
  | error e => rw [hd] at h; cases h
  | ok p =>
    obtain ⟨o1, f⟩ := p
    rw [hd] at h
    simp at h
    obtain ⟨h1id, h1ty, h1am, h1fl, h1pr, h1st⟩ :=
      dispatchOrder_ok_fields env o o1 f hd
    obtain ⟨h2id, h2ty, h2am, h2fl, h2st, h2pr⟩ :=
      setOrderPriority_fields o1
    obtain ⟨h3id, h3ty, h3am, h3fl, h3pr, h3st⟩ :=
      updateOrderStatusStep_fields env (setOrderPriority o1)
    subst h
    refine ⟨by simp [h3id, h2id, h1id], by simp [h3ty, h2ty, h1ty],
      by simp [h3am, h2am, h1am], by simp [h3fl, h2fl, h1fl],
      by simp [h3pr, h2pr, h1am], ?_⟩
    rcases h3st with h3st | h3st
    · rw [h3st, h2st]
      unfold terminalStatuses
      exact List.mem_append_left _ h1st
    · rw [h3st]
      unfold terminalStatuses stageStatuses
      simp

theorem processTypeBOrder_ok_of_apiDataOk (env : Env) (o : Order)
    (h : apiDataOk env o = true) :
    ∃ ob, processTypeBOrder env o = .ok ob := by
  unfold apiDataOk at h
  unfold processTypeBOrder
  revert h
  cases env.callApi o.id with
  | error e => exact fun _ => ⟨_, rfl⟩
  | ok resp =>
    intro h
    dsimp only at h ⊢
    by_cases hs : resp.status = "success"
    · rw [if_pos hs]
      revert h
      cases resp.data with
      | none =>
        intro h
        rw [hs] at h
        simp at h
      | some d =>
        intro _
        dsimp only
        split_ifs <;> exact ⟨_, rfl⟩
    · rw [if_neg hs]
      exact ⟨_, rfl⟩

theorem dispatchOrder_ok_of_apiDataOk (env : Env) (o : Order)
    (h : apiDataOk env o = true) :
    ∃ p, dispatchOrder env o = .ok p := by
  unfold dispatchOrder
  split_ifs with hA hB hC
  · exact ⟨_, rfl⟩
  · obtain ⟨ob, hob⟩ := processTypeBOrder_ok_of_apiDataOk env o h
    exact ⟨(ob, none), by rw [hob]; rfl⟩
  · exact ⟨_, rfl⟩
  · exact ⟨_, rfl⟩

theorem processOrder_ok_of_apiDataOk (env : Env) (o : Order)
    (h : apiDataOk env o = true) :
    ∃ r, processOrder env o = .ok r := by
  obtain ⟨⟨o1, f⟩, hp⟩ := dispatchOrder_ok_of_apiDataOk env o h
  refine ⟨⟨updateOrderStatusStep env (setOrderPriority o1), f,
    ((setOrderPriority o1).id, (setOrderPriority o1).status,
     (setOrderPriority o1).priority)⟩, ?_⟩
  unfold processOrder
  rw [hp]

theorem processOrdersLoop_cons_ok (env : Env) (o : Order) (rest : List Order)
    (r : StepResult) (hr : processOrder env o = .ok r) :
    processOrdersLoop env (o :: rest) =
      (r.order :: (processOrdersLoop env rest).1,
       r.dbCall :: (processOrdersLoop env rest).2.1,
       (processOrdersLoop env rest).2.2) := by
  conv_lhs => rw [processOrdersLoop]
  rw [hr]

theorem processOrdersLoop_cons_err (env : Env) (o : Order)
    (rest : List Order) (e : PyError) (he : processOrder env o = .error e) :
    processOrdersLoop env (o :: rest) = (o :: rest, [], some e) := by
  conv_lhs => rw [processOrdersLoop]
  rw [he]

theorem processOrdersLoop_none_of_all_ok (env : Env) (orders : List Order)
    (h : ∀ o ∈ orders, ∃ r, processOrder env o = .ok r) :
    (processOrdersLoop env orders).2.2 = none ∧
    (processOrdersLoop env orders).1.length = orders.length ∧
    (processOrdersLoop env orders).2.1.length = orders.length := by
  induction orders with
  | nil => simp [processOrdersLoop]
  | cons o rest ih =>
    obtain ⟨r, hr⟩ := h o (List.mem_cons_self o rest)
    obtain ⟨ih1, ih2, ih3⟩ := ih (fun o' ho' => h o' (List.mem_cons_of_mem o ho'))
    rw [processOrdersLoop_cons_ok env o rest r hr]
    exact ⟨ih1, by simp [ih2], by simp [ih3]⟩

theorem processOrdersLoop_mem (env : Env) (orders : List Order)
    (hnone : (processOrdersLoop env orders).2.2 = none) :
    ∀ o' ∈ (processOrdersLoop env orders).1,
      ∃ o ∈ orders, ∃ r, processOrder env o = .ok r ∧ o' = r.order := by
  induction orders with
  | nil => simp [processOrdersLoop]
  | cons o rest ih =>
    cases hr : processOrder env o with
    | error e =>
      rw [processOrdersLoop_cons_err env o rest e hr] at hnone
      simp at hnone
    | ok r =>
      rw [processOrdersLoop_cons_ok env o rest r hr] at hnone ⊢
      dsimp only at hnone ⊢
      intro o' ho'
      rcases List.mem_cons.mp ho' with rfl | ho'
      · exact ⟨o, List.mem_cons_self o rest, r, hr, rfl⟩
      · obtain ⟨oo, hoo, rr, hrr, hh⟩ := ih hnone o' ho'
        exact ⟨oo, List.mem_cons_of_mem o hoo, rr, hrr, hh⟩

theorem processOrders_eq_of_fetch (env : Env) (uid : Int)
    (orders : List Order)
    (hget : env.getOrders uid = .ok orders) (hne : orders ≠ []) :
    processOrders env uid =
      ⟨(processOrdersLoop env orders).2.2.isNone,
       (processOrdersLoop env orders).1,
       (processOrdersLoop env orders).2.1⟩ := by
  unfold processOrders
  rw [hget]
  dsimp only
  rw [if_neg (fun hif => hne (List.isEmpty_iff.mp hif))]

/-! ### Concrete environments used by counterexamples and witnesses -/

/-- Environment for the C1 counterexample: the fetch succeeds with two
orders, and the remote service answers every call with a `"success"`
response whose payload is `None`. -/
def envC1 : Env :=
  { getOrders := fun _ => .ok
      [{ id := 1, type := "B", amount := 50, flag := false },
       { id := 2, type := "C", amount := 50, flag := true }]
    fileWriteOk := fun _ => true
    callApi := fun _ => .ok { status := "success", data := none }
    updateOrderStatus := fun _ _ _ => .ok true }

/-- Orders fetched by `envW1` for user 7: one per fault kind (export
I/O failure, remote-call failure, non-success response, flag completion,
persistence failure). -/
def ordersW1 : List Order :=
  [{ id := 1, type := "A", amount := 100, flag := false },
   { id := 2, type := "B", amount := 50, flag := false },
   { id := 3, type := "B", amount := 150, flag := true },
   { id := 4, type := "C", amount := 250, flag := true },
   { id := 5, type := "A", amount := 300, flag := false }]

/-- Environment for the C1 witness: the file write fails for order 1,
the remote call raises for order 2 and answers `"error"` for order 3,
and the persistence call raises for order 5. -/
def envW1 : Env :=
  { getOrders := fun u => if u = 7 then .ok ordersW1 else .error ()
    fileWriteOk := fun i => decide (i ≠ 1)
    callApi := fun i =>
      if i = 2 then .error ()
      else if i = 3 then .ok { status := "error", data := none }
      else .ok { status := "success", data := some 60 }
    updateOrderStatus := fun i _ _ => if i = 5 then .error () else .ok true }

/-! ### Claims -/

/-- C1, counterexample: the claim says no per-order fault whatsoever can
abort processing of the remaining orders or change the `true` return
value.  In `envC1` the fetch succeeds with a non-empty batch, but the
first order's pipeline raises an uncaught `TypeError` at
`api_response.data >= 50` (the `"success"` response carries payload
`None`), so `process_orders` returns `false`, the second order is never
visited (its status is still `"new"`), and no persistence call is
made. -/
theorem process_orders_aborts_on_none_payload :
    envC1.getOrders 1 = .ok
      [{ id := 1, type := "B", amount := 50, flag := false },
       { id := 2, type := "C", amount := 50, flag := true }] ∧
    (processOrders envC1 1).retval = false ∧
    (processOrders envC1 1).orders.map Order.status = ["new", "new"] ∧
    (processOrders envC1 1).dbCalls = [] := by
  decide

/-- C1, amended: for every user whose order fetch succeeds with a
non-empty list, provided no `"success"` response of the remote service
carries a `None` payload for an order of the batch, `process_orders`
visits every order sequentially and returns `true`: none of the
enumerated per-order faults (export I/O failure, signaled remote-call
failure, non-success remote response, persistence failure) aborts
processing of the remaining orders or changes the `true` return value —
witnessed by one `update_order_status` call per order. -/
theorem process_orders_true_of_fetch_nonempty (env : Env) (uid : Int)
    (orders : List Order)
    (hget : env.getOrders uid = .ok orders) (hne : orders ≠ [])
    (hapi : ∀ o ∈ orders, apiDataOk env o = true) :
    (processOrders env uid).retval = true ∧
    (processOrders env uid).orders.length = orders.length ∧
    (processOrders env uid).dbCalls.length = orders.length := by
  rw [processOrders_eq_of_fetch env uid orders hget hne]
  have hall : ∀ o ∈ orders, ∃ r, processOrder env o = .ok r :=
    fun o ho => processOrder_ok_of_apiDataOk env o (hapi o ho)
  obtain ⟨h1, h2, h3⟩ := processOrdersLoop_none_of_all_ok env orders hall
  exact ⟨by rw [h1]; rfl, h2, h3⟩

/-- C1, witness: in `envW1` every fault kind occurs for some order of
the batch, yet `process_orders` returns `true` and all five orders are
visited and persisted. -/
theorem process_orders_true_of_fetch_nonempty_w :
    (processOrders envW1 7).retval = true ∧
    (processOrders envW1 7).orders.length = ordersW1.length ∧
    (processOrders envW1 7).dbCalls.length = ordersW1.length :=
  process_orders_true_of_fetch_nonempty envW1 7 ordersW1 (by decide)
    (by decide) (by decide)

/-- Environment whose fetch raises for every user (C8 witness). -/
def envW8a : Env :=
  { getOrders := fun _ => .error ()
    fileWriteOk := fun _ => true
    callApi := fun _ => .error ()
    updateOrderStatus := fun _ _ _ => .ok true }

/-- Environment whose fetch returns the empty list for every user
(C8 witness). -/
def envW8b : Env :=
  { getOrders := fun _ => .ok []
    fileWriteOk := fun _ => true
    callApi := fun _ => .error ()
    updateOrderStatus := fun _ _ _ => .ok true }

/-- C8: `process_orders` returns `false` both when the fetch raises and
when it returns an empty collection; in both cases no per-order
processing happens (the result holds no orders) and no persistence call
is made. -/
theorem process_orders_false_on_fetch_error_or_empty (env : Env)
    (uid : Int) :
    (env.getOrders uid = .error () →
      processOrders env uid = ⟨false, [], []⟩) ∧
    (env.getOrders uid = .ok [] →
      processOrders env uid = ⟨false, [], []⟩) := by
  constructor
  · intro h
    unfold processOrders
    rw [h]
  · intro h
    unfold processOrders
    rw [h]
    rfl

/-- C8, witness: a raising fetch and an empty fetch, both returning
`false` with no per-order effects. -/
theorem process_orders_false_on_fetch_error_or_empty_w :
    processOrders envW8a 1 = ⟨false, [], []⟩ ∧
    processOrders envW8b 1 = ⟨false, [], []⟩ :=
  ⟨(process_orders_false_on_fetch_error_or_empty envW8a 1).1 rfl,
   (process_orders_false_on_fetch_error_or_empty envW8b 1).2 rfl⟩

/-- Environment whose persistence call always returns `False` without
raising (C9 witness). -/
def envW9 : Env :=
  { getOrders := fun _ => .error ()
    fileWriteOk := fun _ => true
    callApi := fun _ => .error ()
    updateOrderStatus := fun _ _ _ => .ok false }

/-- A sample order for the C9 witness. -/
def oW9 : Order := { id := 41, type := "C", amount := 80, flag := true }

/-- C9: when `update_order_status` completes without raising and merely
returns `False`, the order is left unchanged — in particular its status
is not overwritten to `"db_error"`, because the implementation ignores
the boolean result and only a raised `DatabaseException` triggers
`"db_error"`. -/
theorem update_false_result_ignored (env : Env) (o : Order)
    (h : env.updateOrderStatus o.id o.status o.priority = .ok false) :
    updateOrderStatusStep env o = o := by
  unfold updateOrderStatusStep
  rw [h]

/-- C9, witness: a persistence call returning `False` leaves the order
untouched. -/
theorem update_false_result_ignored_w :
    updateOrderStatusStep envW9 oW9 = oW9 :=
  update_false_result_ignored envW9 oW9 rfl

/-- Environment and order for the C10 witness: a type-B order whose
remote call answers a `"success"` response with payload 10. -/
def envW10 : Env :=
  { getOrders := fun _ => .error ()
    fileWriteOk := fun _ => true
    callApi := fun _ => .ok { status := "success", data := some 10 }
    updateOrderStatus := fun _ _ _ => .ok true }

/-- Order processed in the C10 witness. -/
def oW10 : Order := { id := 51, type := "B", amount := 120, flag := false }

/-- Final step result of the C10 witness run: status `"pending"`
(payload 10 < 50), priority `"low"`. -/
def rW10 : StepResult :=
  ⟨{ id := 51, type := "B", amount := 120, flag := false,
     status := "pending", priority := "low" }, none,
   (51, "pending", "low")⟩

/-- C10: the whole per-order pipeline mutates only the order's `status`
and `priority`: whenever it completes, the final order carries the same
`id`, `type`, `amount` and `flag` as the fetched order. -/
theorem pipeline_touches_only_status_priority (env : Env) (o : Order)
    (r : StepResult) (h : processOrder env o = .ok r) :
    r.order.id = o.id ∧ r.order.type = o.type ∧
    r.order.amount = o.amount ∧ r.order.flag = o.flag := by
  obtain ⟨h1, h2, h3, h4, _, _⟩ := processOrder_ok_spec env o r h
  exact ⟨h1, h2, h3, h4⟩

/-- C10, witness: the pipeline run of `oW10` keeps id, type, amount and
flag. -/
theorem pipeline_touches_only_status_priority_w :
    rW10.order.id = oW10.id ∧ rW10.order.type = oW10.type ∧
    rW10.order.amount = oW10.amount ∧ rW10.order.flag = oW10.flag :=
  pipeline_touches_only_status_priority envW10 oW10 rW10 (by decide)

/-- Environment for the C3 witness: every persistence call raises. -/
def envC3 : Env :=
  { getOrders := fun _ => .error ()
    fileWriteOk := fun _ => true
    callApi := fun _ => .error ()
    updateOrderStatus := fun _ _ _ => .error () }

/-- Order processed in the C3 witness: type C, flag set, amount 250. -/
def oC3 : Order := { id := 3, type := "C", amount := 250, flag := true }

/-- Final step result of the C3 witness run: the stage computed
`"completed"` but the failing persistence call overwrote it with
`"db_error"`, keeping priority `"high"`. -/
def rC3 : StepResult :=
  ⟨{ id := 3, type := "C", amount := 250, flag := true,
     status := "db_error", priority := "high" }, none,
   (3, "completed", "high")⟩

/-- C3: for every order, if the terminal `update_order_status` call
signals a persistence error, the order's final status is overwritten to
`"db_error"` regardless of whatever status the type-specific stage
computed, while the priority assigned by the priority stage
(`"high"` iff amount > 200) is kept. -/
theorem db_error_overwrites_status (env : Env) (o : Order)
    (r : StepResult)
    (hdb : ∀ s p, env.updateOrderStatus o.id s p = .error ())
    (h : processOrder env o = .ok r) :
    r.order.status = "db_error" ∧
    r.order.priority = (if 200 < o.amount then "high" else "low") := by
  unfold processOrder at h
  cases hd : dispatchOrder env o with
  | error e => rw [hd] at h; cases h
  | ok p =>
    obtain ⟨o1, f⟩ := p
    rw [hd] at h
    dsimp only at h
    obtain ⟨h1id, _, h1am, _, _, _⟩ := dispatchOrder_ok_fields env o o1 f hd
    obtain ⟨h2id, _, _, _, _, h2pr⟩ := setOrderPriority_fields o1
    have hid2 : (setOrderPriority o1).id = o.id := by rw [h2id, h1id]
    unfold updateOrderStatusStep at h
    rw [hid2, hdb] at h
    dsimp only at h
    cases h
    dsimp only
    refine ⟨rfl, ?_⟩
    have : (setOrderPriority o1).priority = (if 200 < o.amount then "high" else "low") := by
      rw [h2pr, h1am]
    exact this

/-- C3, witness: for a type-C order with amount 250 and a raising
persistence layer, the final status is `"db_error"` even though the
stage computed `"completed"`, and the priority is `"high"`. -/
theorem db_error_overwrites_status_w :
    rC3.order.status = "db_error" ∧
    rC3.order.priority = (if 200 < oC3.amount then "high" else "low") :=
  db_error_overwrites_status envC3 oC3 rC3 (fun _ _ => rfl) (by decide)

/-- Environment for the C5 witness: a successful, quiet world. -/
def envW5 : Env :=
  { getOrders := fun _ => .error ()
    fileWriteOk := fun _ => true
    callApi := fun _ => .error ()
    updateOrderStatus := fun _ _ _ => .ok true }

/-- Order processed in the C5 witness: amount exactly 200 (the
boundary, which must give `"low"`). -/
def oW5 : Order := { id := 61, type := "C", amount := 200, flag := false }

/-- Final step result of the C5 witness run. -/
def rW5 : StepResult :=
  ⟨{ id := 61, type := "C", amount := 200, flag := false,
     status := "in_progress", priority := "low" }, none,
   (61, "in_progress", "low")⟩

/-- C5: after the priority-assignment stage — which runs for every order
regardless of type, after the type-specific stage, overwriting any prior
priority — the final priority is `"high"` exactly when amount > 200, and
`"low"` otherwise (including at amount = 200). -/
theorem priority_high_iff_amount_gt_200 (env : Env) (o : Order)
    (r : StepResult) (h : processOrder env o = .ok r) :
    r.order.priority = (if 200 < o.amount then "high" else "low") ∧
    (r.order.priority = "high" ↔ 200 < o.amount) := by
  obtain ⟨_, _, _, _, hpr, _⟩ := processOrder_ok_spec env o r h
  refine ⟨hpr, ?_⟩
  rw [hpr]
  split_ifs with hc
  · exact iff_of_true rfl hc
  · exact iff_of_false (by decide) hc

/-- C5, witness: an order with amount exactly 200 ends with priority
`"low"`. -/
theorem priority_high_iff_amount_gt_200_w :
    rW5.order.priority = (if 200 < oW5.amount then "high" else "low") ∧
    (rW5.order.priority = "high" ↔ 200 < oW5.amount) :=
  priority_high_iff_amount_gt_200 envW5 oW5 rW5 (by decide)

/-- Environment for the C4 counterexample: a non-empty batch of two
orders, the remote service answering `"success"` with a `None`
payload. -/
def envC4 : Env :=
  { getOrders := fun _ => .ok
      [{ id := 11, type := "B", amount := 60, flag := false },
       { id := 12, type := "A", amount := 60, flag := false }]
    fileWriteOk := fun _ => true
    callApi := fun _ => .ok { status := "success", data := none }
    updateOrderStatus := fun _ _ _ => .ok true }

/-- C4, counterexample: the claim says that after `process_orders`
returns on a non-empty fetched batch, every order's status is one of the
enumerated terminal values and never the initial `"new"`, the flat loop
making it impossible for processing not to reach an order.  In `envC4`
the fetch succeeds with two orders, but the first order's `"success"`
response with `None` payload raises an uncaught `TypeError` that breaks
out of the flat loop, and after the call both orders are still at
`"new"`, which is not a terminal value. -/
theorem batch_leaves_new_status_on_abort :
    envC4.getOrders 11 = .ok
      [{ id := 11, type := "B", amount := 60, flag := false },
       { id := 12, type := "A", amount := 60, flag := false }] ∧
    (processOrders envC4 11).orders.map Order.status = ["new", "new"] ∧
    "new" ∉ terminalStatuses := by
  decide

/-- C4, amended: whenever `process_orders` returns `true` (all orders
were visited), every order's final status is one of the enumerated
terminal values (`"exported"`, `"export_failed"`, `"processed"`,
`"pending"`, `"error"`, `"api_error"`, `"api_failure"`, `"completed"`,
`"in_progress"`, `"unknown_type"`, `"db_error"`) and is never left at
the initial default `"new"`. -/
theorem statuses_terminal_when_batch_completes (env : Env) (uid : Int)
    (h : (processOrders env uid).retval = true) :
    ∀ o ∈ (processOrders env uid).orders,
      o.status ∈ terminalStatuses ∧ o.status ≠ "new" := by
  cases hget : env.getOrders uid with
  | error e =>
    unfold processOrders at h
    rw [hget] at h
    cases h
  | ok orders =>
    by_cases hemp : orders = []
    · subst hemp
      unfold processOrders at h
      rw [hget] at h
      cases h
    · rw [processOrders_eq_of_fetch env uid orders hget hemp] at h ⊢
      dsimp only at h ⊢
      have hnone : (processOrdersLoop env orders).2.2 = none := by
        simpa using h
      intro o' ho'
      obtain ⟨o, _, r, hr, rfl⟩ := processOrdersLoop_mem env orders hnone o' ho'
      obtain ⟨_, _, _, _, _, hst⟩ := processOrder_ok_spec env o r hr
      refine ⟨hst, fun hnew => ?_⟩
      rw [hnew] at hst
      revert hst
      decide

/-- Environment for the C4 witness: one order of unknown type. -/
def envW4 : Env :=
  { getOrders := fun _ => .ok
      [{ id := 21, type := "X", amount := 10, flag := false }]
    fileWriteOk := fun _ => true
    callApi := fun _ => .error ()
    updateOrderStatus := fun _ _ _ => .ok true }

/-- Final state of the order of `envW4` after processing. -/
def oW4final : Order :=
  { id := 21, type := "X", amount := 10, flag := false,
    status := "unknown_type", priority := "low" }

/-- C4, witness: the completed run of `envW4` returns `true` and its
order ends in the terminal status `"unknown_type"`, not `"new"`. -/
theorem statuses_terminal_when_batch_completes_w :
    oW4final ∈ (processOrders envW4 0).orders ∧
    oW4final.status ∈ terminalStatuses ∧ oW4final.status ≠ "new" := by
  have h := statuses_terminal_when_batch_completes envW4 0 (by decide)
  have hm : oW4final ∈ (processOrders envW4 0).orders := by decide
  exact ⟨hm, h oW4final hm⟩

theorem updateOrderStatusStep_id_of_no_error (env : Env) (o : Order)
    (hdb : env.updateOrderStatus o.id o.status o.priority ≠ .error ()) :
    updateOrderStatusStep env o = o := by
  unfold updateOrderStatusStep
  cases henv : env.updateOrderStatus o.id o.status o.priority with
  | error e => cases e; exact absurd henv hdb
  | ok b => rfl

theorem dispatchOrder_typeA (env : Env) (o : Order) (hA : o.type = "A") :
    dispatchOrder env o = .ok (processTypeAOrder (env.fileWriteOk o.id) o) := by
  unfold dispatchOrder
  rw [if_pos hA]

/-- C7: for a non-empty batch of type-A orders whose export open/write
always fails with an I/O error (and whose persistence layer does not
raise), every order's status becomes `"export_failed"`, and this is
local and non-fatal: `process_orders` still returns `true` for the
batch. -/
theorem export_failed_is_local_nonfatal (env : Env) (uid : Int)
    (orders : List Order)
    (hget : env.getOrders uid = .ok orders) (hne : orders ≠ [])
    (hA : ∀ o ∈ orders, o.type = "A")
    (hfile : ∀ i, env.fileWriteOk i = false)
    (hdb : ∀ i s p, env.updateOrderStatus i s p ≠ .error ()) :
    (processOrders env uid).retval = true ∧
    ∀ o' ∈ (processOrders env uid).orders, o'.status = "export_failed" := by
  have hone : ∀ o ∈ orders, processOrder env o =
      .ok ⟨setOrderPriority { o with status := "export_failed" }, none,
           ((setOrderPriority { o with status := "export_failed" }).id,
            (setOrderPriority { o with status := "export_failed" }).status,
            (setOrderPriority { o with status := "export_failed" }).priority)⟩ := by
    intro o ho
    unfold processOrder
    rw [dispatchOrder_typeA env o (hA o ho), hfile o.id]
    dsimp only
    rw [processTypeAOrder]
    rw [if_neg (by decide : ¬(false = true))]
    dsimp only
    rw [updateOrderStatusStep_id_of_no_error env _ (hdb _ _ _)]
  rw [processOrders_eq_of_fetch env uid orders hget hne]
  have hall : ∀ o ∈ orders, ∃ r, processOrder env o = .ok r :=
    fun o ho => ⟨_, hone o ho⟩
  obtain ⟨hnone, _, _⟩ := processOrdersLoop_none_of_all_ok env orders hall
  constructor
  · dsimp only
    rw [hnone]
    rfl
  · intro o' ho'
    dsimp only at ho'
    obtain ⟨o, ho, r, hr, rfl⟩ := processOrdersLoop_mem env orders hnone o' ho'
    rw [hone o ho] at hr
    injection hr with hr
    rw [← hr]
    dsimp only
    obtain ⟨_, _, _, _, hst, _⟩ := setOrderPriority_fields { o with status := "export_failed" }
    rw [hst]

/-- Orders fetched by `envW7`: a single type-A order. -/
def ordersW7 : List Order :=
  [{ id := 31, type := "A", amount := 90, flag := false }]

/-- Environment for the C7 witness: the CSV open/write always fails. -/
def envW7 : Env :=
  { getOrders := fun _ => .ok ordersW7
    fileWriteOk := fun _ => false
    callApi := fun _ => .error ()
    updateOrderStatus := fun _ _ _ => .ok true }

/-- Final state of the order of `envW7` after processing. -/
def oW7final : Order :=
  { id := 31, type := "A", amount := 90, flag := false,
    status := "export_failed", priority := "low" }

/-- C7, witness: with a failing file write the batch still returns
`true` and the order ends as `"export_failed"`. -/
theorem export_failed_is_local_nonfatal_w :
    (processOrders envW7 3).retval = true ∧
    oW7final ∈ (processOrders envW7 3).orders ∧
    oW7final.status = "export_failed" := by
  have h := export_failed_is_local_nonfatal envW7 3 ordersW7 (by decide)
    (by decide) (by decide) (fun _ => rfl)
    (by intro i s p hcon; simp [envW7] at hcon)
  have hm : oW7final ∈ (processOrders envW7 3).orders := by decide
  exact ⟨h.1, hm, h.2 oW7final hm⟩

/-- C2: for a type-B order, a `"success"` response with numeric payload
`d` yields status `"processed"` if `d >= 50` and `amount < 100`,
otherwise `"pending"` if `d < 50` or the flag is set, otherwise
`"error"` — and `"error"` is reached exactly when `d >= 50`,
`amount >= 100` and the flag is clear.  A response whose status is not
`"success"` yields `"api_error"`, and a raised `APIException` yields
`"api_failure"`. -/
theorem typeB_status_rules (env : Env) (o : Order) :
    (∀ d : Rat, env.callApi o.id = .ok ⟨"success", some d⟩ →
      processTypeBOrder env o =
        .ok { o with status :=
          if d ≥ 50 ∧ o.amount < 100 then "processed"
          else if d < 50 ∨ o.flag then "pending"
          else "error" } ∧
      (processTypeBOrder env o = .ok { o with status := "error" } ↔
        d ≥ 50 ∧ o.amount ≥ 100 ∧ o.flag = false)) ∧
    (∀ resp, env.callApi o.id = .ok resp → resp.status ≠ "success" →
      processTypeBOrder env o = .ok { o with status := "api_error" }) ∧
    (∀ e, env.callApi o.id = .error e →
      processTypeBOrder env o = .ok { o with status := "api_failure" }) := by
  refine ⟨fun d hapi => ?_, fun resp hapi hnsucc => ?_, fun e hapi => ?_⟩
  · have heq : processTypeBOrder env o =
        .ok { o with status :=
          if d ≥ 50 ∧ o.amount < 100 then "processed"
          else if d < 50 ∨ o.flag then "pending"
          else "error" } := by
      unfold processTypeBOrder
      rw [hapi]
      dsimp only
      rw [if_pos rfl]
      split_ifs <;> rfl
    refine ⟨heq, ?_⟩
    rw [heq]
    constructor
    · intro hEq
      have hS : (if d ≥ 50 ∧ o.amount < 100 then "processed"
          else if d < 50 ∨ o.flag then "pending" else "error") = "error" := by
        have hc := congrArg
          (fun x : Except PyError Order =>
            match x with | .ok oo => oo.status | .error _ => "") hEq
        simpa using hc
      split_ifs at hS with h1 h2
      · exact absurd hS (by decide)
      · exact absurd hS (by decide)
      · push_neg at h1 h2
        exact ⟨h2.1, h1 h2.1, by simpa using h2.2⟩
    · rintro ⟨hd, ham, hfl⟩
      rw [if_neg (fun hcon => absurd hcon.2 (not_lt.mpr ham)),
          if_neg (by
            rintro (hlt | hf)
            · exact absurd hlt (not_lt.mpr hd)
            · rw [hfl] at hf
              exact Bool.false_ne_true hf)]
  · unfold processTypeBOrder
    rw [hapi]
    dsimp only
    rw [if_neg hnsucc]
  · unfold processTypeBOrder
    rw [hapi]

/-- Environment for the C2 witness: a `"success"` response with
payload 60. -/
def envC2w : Env :=
  { getOrders := fun _ => .error ()
    fileWriteOk := fun _ => true
    callApi := fun _ => .ok { status := "success", data := some 60 }
    updateOrderStatus := fun _ _ _ => .ok true }

/-- Order for the C2 witness: amount 50, flag clear. -/
def oC2w : Order := { id := 9, type := "B", amount := 50, flag := false }

/-- C2, witness: payload 60 with amount 50 gives `"processed"`, and the
`"error"` branch is not reached (amount < 100). -/
theorem typeB_status_rules_w :
    processTypeBOrder envC2w oC2w = .ok { oC2w with status := "processed" } ∧
    ¬(processTypeBOrder envC2w oC2w = .ok { oC2w with status := "error" }) := by
  have h := (typeB_status_rules envC2w oC2w).1 60 rfl
  constructor
  · have h1 := h.1
    rwa [if_pos (by decide : (60:Rat) ≥ 50 ∧ oC2w.amount < 100)] at h1
  · intro hcon
    have h2 := h.2.mp hcon
    exact absurd h2.2.1 (by decide)

/-- C6: a successful type-A export writes the header row, then exactly
one data row with the order's current id, type, amount and lowercase
flag together with the status and priority as they stand before the
write (`"new"`/`"low"`, priority assignment happening only after this
stage), then the `"High value order"` annotation row exactly when
amount > 150; the order's status becomes `"exported"`. -/
theorem typeA_export_file_contents (o : Order)
    (hs : o.status = "new") (hp : o.priority = "low") :
    processTypeAOrder true o =
      ({ o with status := "exported" },
       some ([[.strCell "ID", .strCell "Type", .strCell "Amount",
               .strCell "Flag", .strCell "Status", .strCell "Priority"],
              [.intCell o.id, .strCell o.type, .numCell o.amount,
               .strCell (pyBoolLower o.flag), .strCell "new",
               .strCell "low"]] ++
             (if o.amount > 150 then
               [[.strCell "", .strCell "", .strCell "", .strCell "",
                 .strCell "Note", .strCell "High value order"]]
              else []))) := by
  unfold processTypeAOrder csvRows
  rw [if_pos rfl, hs, hp]

/-- Order for the C6 witness: type A, amount 200 (above the high-value
threshold), flag set; status and priority still at their initial
defaults. -/
def oW6 : Order := { id := 8, type := "A", amount := 200, flag := true }

/-- C6, witness: the export of `oW6` produces the header, a data row
showing `"new"`/`"low"` and the lowercase flag, and the high-value
annotation row, and marks the order `"exported"`. -/
theorem typeA_export_file_contents_w :
    processTypeAOrder true oW6 =
      ({ oW6 with status := "exported" },
       some [[.strCell "ID", .strCell "Type", .strCell "Amount",
              .strCell "Flag", .strCell "Status", .strCell "Priority"],
             [.intCell 8, .strCell "A", .numCell 200, .strCell "true",
              .strCell "new", .strCell "low"],
             [.strCell "", .strCell "", .strCell "", .strCell "",
              .strCell "Note", .strCell "High value order"]]) := by
  have h := typeA_export_file_contents oW6 rfl rfl
  rw [h]
  decide

end Exam
